import Mathlib

/-
Verification of the early-project-poster pipeline.

Shallow embedding of the Python sources:
  src/modules/gemini_summarizer.py   (GeminiSummarizer)
  src/modules/web3alerts_scraper.py  (Web3AlertsScraper.get_latest_projects)
  src/modules/typefully_publisher.py (TypefullyPublisher, PublishResult)
  src/main.py                        (format_tweet)

External services (Gemini, Typefully, the alerts API) are modelled by
oracles: values describing the outcome of each network call.  A call that
raises an exception is modelled by the `none` / error constructor of the
corresponding oracle field.  Python strings are Lean `String`s; Python
dictionaries with a known key set are Lean structures with `Option` fields
(a `none` field models an absent key).
-/

namespace Poster

/-! ## Python string primitives -/

/-- Whitespace characters recognised by Python `str.strip()` / `str.split()`
(space, tab, newline, carriage return, vertical tab, form feed). -/
def isPySpace (c : Char) : Bool :=
  c = ' ' || c = Char.ofNat 9 || c = Char.ofNat 10 || c = Char.ofNat 13 ||
  c = Char.ofNat 11 || c = Char.ofNat 12

/-- Drop characters satisfying `p` from both ends of a character list. -/
def trimListWith (p : Char → Bool) (l : List Char) : List Char :=
  ((l.dropWhile p).reverse.dropWhile p).reverse

/-- Python `s.strip()` with no argument. -/
def pytrim (s : String) : String := ⟨trimListWith isPySpace s.data⟩

/-- The two quote characters stripped by `strip('"\x27')` in the source:
double quote (34) and single quote (39). -/
def isQuoteChar (c : Char) : Bool := c = Char.ofNat 34 || c = Char.ofNat 39

/-- Python `s.strip('"\x27')`: strip surrounding quote characters. -/
def stripQuotes (s : String) : String := ⟨trimListWith isQuoteChar s.data⟩

/-- Helper for `pyWords`: accumulates the current word (reversed) while
scanning the character list. -/
def pyWordsAux : List Char → List Char → List String
  | [], acc => if acc.isEmpty then [] else [⟨acc.reverse⟩]
  | c :: cs, acc =>
    if isPySpace c then
      if acc.isEmpty then pyWordsAux cs [] else ⟨acc.reverse⟩ :: pyWordsAux cs []
    else pyWordsAux cs (c :: acc)

/-- Python `s.split()` with no argument: split on whitespace runs, dropping
empty pieces. -/
def pyWords (s : String) : List String := pyWordsAux s.data []

/-- Helper for `splitLines`. -/
def splitLinesAux : List Char → List Char → List String
  | [], acc => [⟨acc.reverse⟩]
  | c :: cs, acc =>
    if c = Char.ofNat 10 then ⟨acc.reverse⟩ :: splitLinesAux cs []
    else splitLinesAux cs (c :: acc)

/-- Python `s.split('\n')`: split at newline characters, keeping empty
pieces. -/
def splitLines (s : String) : List String := splitLinesAux s.data []

/-- Python `s.startswith(p)`. -/
def pyStartsWith (s p : String) : Bool := p.data.isPrefixOf s.data

/-- Python `s[n:]` on a string (drop the first `n` characters). -/
def pyDropChars (s : String) (n : Nat) : String := ⟨s.data.drop n⟩

/-- Python truthiness of an optional string: `None` and `""` are falsy. -/
def strOptTruthy : Option String → Bool
  | none => false
  | some s => !(s == "")

/-- Boolean substring test: does `sub` occur inside `s`? -/
def containsStr (s sub : String) : Bool :=
  (List.range (s.data.length + 1)).any (fun i => sub.data.isPrefixOf (s.data.drop i))

/-! ## Data model

A project record, as produced by the alerts API and consumed downstream
(a Python dict; `none` models an absent key). -/

structure Record where
  project_name : Option String := none
  handle : Option String := none
  description : Option String := none
  days_since_discovery : Option Int := none
  summary : Option String := none
deriving Repr, DecidableEq

/-! ## Summarization engine (src/modules/gemini_summarizer.py)

The Gemini service is modelled by an oracle: the outcome of each
`client.models.generate_content` call.  `some t` means the call returned
and `response.text` was the string `t`; `none` means the call raised (or
`response.text` was unusable), i.e. execution jumps to the `except` arm. -/

/-- One `generate_content` call, as an exception-transparent computation. -/
def generate_content (svc : Option String) : Except Unit String :=
  match svc with
  | some t => Except.ok t
  | none => Except.error ()

/-- The truncation fallback in the `except` arm of
`GeminiSummarizer.summarize_description` (lines 66-67):
`words = description.split()[:max_words]` then `" ".join(words) + "..."` if
the full word count exceeds `max_words`, else the original description. -/
def truncateFallback (description : String) (max_words : Nat) : String :=
  if (pyWords description).length > max_words then
    String.intercalate " " ((pyWords description).take max_words) ++ "..."
  else description

/-- `GeminiSummarizer.summarize_description` (lines 33-67), with the
try/except structure made explicit: the body is an `Except` computation and
every branch ends in `Except.ok`, which is the embedding of the fact that
the `except Exception` arm catches every failure of the service call. -/
def summarize_descriptionE (svc : Option String) (description : String)
    (max_words : Nat) : Except Unit String :=
  if description = "" then Except.ok ""
  else if (pytrim description).length < 20 then Except.ok (pytrim description)
  else
    match generate_content svc with
    | Except.ok t => Except.ok (stripQuotes (pytrim t))
    | Except.error _ => Except.ok (truncateFallback description max_words)

/-- The string actually returned by `summarize_description`. -/
def summarize_description (svc : Option String) (description : String)
    (max_words : Nat) : String :=
  match summarize_descriptionE svc description max_words with
  | Except.ok s => s
  | Except.error _ => ""

/-- The numbered markers `"1." ... "n."` (resp. `)` or `:` variants) tried
by `_parse_batch_response` (lines 139-150). -/
def markers (n : Nat) (suf : String) : List String :=
  (List.range n).map (fun i => toString (i + 1) ++ suf)

/-- One of the three marker-stripping loops: strip the first matching
marker from the front of the line (then `.strip()`), or leave the line
unchanged. -/
def stripOneMarker (line : String) (ms : List String) : String :=
  match ms.find? (fun p => pyStartsWith line p) with
  | some p => pytrim (pyDropChars line p.length)
  | none => line

/-- The three sequential marker-stripping loops of `_parse_batch_response`
(lines 139-150): forms `N.`, `N)`, `N:` for `N` in `[1, expected_count]`. -/
def stripNumbering (line : String) (expected_count : Nat) : String :=
  stripOneMarker
    (stripOneMarker
      (stripOneMarker line (markers expected_count "."))
      (markers expected_count ")"))
    (markers expected_count ":")

/-- The per-line treatment inside the loop of `_parse_batch_response`:
strip, skip blank lines, strip numbering, strip quotes, keep non-empty
results. -/
def parse_line (line : String) (expected_count : Nat) : Option String :=
  if pytrim line = "" then none
  else if stripQuotes (stripNumbering (pytrim line) expected_count) = "" then none
  else some (stripQuotes (stripNumbering (pytrim line) expected_count))

/-- `GeminiSummarizer._parse_batch_response` (lines 129-157). -/
def _parse_batch_response (response_text : String) (expected_count : Nat) :
    List String :=
  (splitLines (pytrim response_text)).filterMap (fun l => parse_line l expected_count)

/-- Outcomes of the Gemini calls made during `summarize_projects`:
the single batch call, and (if needed) one individual call per record,
indexed by record position. -/
structure SummarizerOracle where
  batch : Option String
  individual : Nat → Option String

/-- The summary chosen for record `i` in the batch-success path
(lines 92-98): the parsed summary when present and non-empty, otherwise an
individual `summarize_description` call on the record's description. -/
def summaryFor (oracle : SummarizerOracle) (summaries : List String)
    (max_words : Nat) (i : Nat) (p : Record) : String :=
  match summaries[i]? with
  | some s =>
    if s = "" then
      summarize_description (oracle.individual i) (p.description.getD "") max_words
    else s
  | none => summarize_description (oracle.individual i) (p.description.getD "") max_words

/-- The in-place update loop `project['summary'] = ...` over the record
list, carrying the 1-per-record index. -/
def assignSummaries (f : Nat → Record → String) : Nat → List Record → List Record
  | _, [] => []
  | i, p :: ps => { p with summary := some (f i p) } :: assignSummaries f (i + 1) ps

/-- `GeminiSummarizer.summarize_projects` (lines 69-112) with the
try/except structure explicit: the batch path on service success, the
individual-with-rate-limit path in the `except` arm (the `time.sleep`
throttle has no observable effect on the result and is not modelled). -/
def summarize_projectsE (oracle : SummarizerOracle) (projects : List Record)
    (max_words : Nat) : Except Unit (List Record) :=
  match generate_content oracle.batch with
  | Except.ok text =>
    let summaries := _parse_batch_response text projects.length
    Except.ok (assignSummaries (summaryFor oracle summaries max_words) 0 projects)
  | Except.error _ =>
    Except.ok (assignSummaries
      (fun i p => summarize_description (oracle.individual i) (p.description.getD "") max_words)
      0 projects)

/-- The list actually returned by `summarize_projects`. -/
def summarize_projects (oracle : SummarizerOracle) (projects : List Record)
    (max_words : Nat) : List Record :=
  match summarize_projectsE oracle projects max_words with
  | Except.ok l => l
  | Except.error _ => []

/-! ## Record source (src/modules/web3alerts_scraper.py)

`get_latest_projects` sorts the raw fetch result by
`x.get('days_since_discovery', float('inf'))` ascending and truncates.
Python `sorted` is a stable sort; it is modelled by insertion sort, which
is also stable, over the same key order. -/

/-- The sort key comparison: missing recency compares as plus infinity
(the `float('inf')` default), so it sorts after every defined recency. -/
def keyLE (a b : Option Int) : Bool :=
  match a, b with
  | none, none => true
  | none, some _ => false
  | some _, none => true
  | some x, some y => decide (x ≤ y)

/-- The record order used by the sort in `get_latest_projects`. -/
def recLE (a b : Record) : Prop :=
  keyLE a.days_since_discovery b.days_since_discovery = true

instance : DecidableRel recLE :=
  fun a b => Bool.decEq (keyLE a.days_since_discovery b.days_since_discovery) true

/-- `Web3AlertsScraper.get_latest_projects` (lines 62-81), with the raw
fetch result passed in as `projects`. -/
def get_latest_projects (projects : List Record) (count : Nat) : List Record :=
  (List.insertionSort recLE projects).take count

/-! ## Publish scheduler (src/modules/typefully_publisher.py)

The current instant is modelled as a count of seconds on the UTC+8 wall
clock (seconds since 1970-01-01T00:00:00 in that fixed zone), which is what
`datetime.now(SGT)` denotes; `timedelta(hours=h)` adds `3600 * h` seconds
to the instant.  `strftime` needs the civil calendar date, computed with
the standard days-to-civil-date conversion for the proleptic Gregorian
calendar used by Python `datetime`. -/

/-- Civil date (year, month, day) of a day count since 1970-01-01. -/
def civilFromDays (z0 : Nat) : Nat × Nat × Nat :=
  let z := z0 + 719468
  let era := z / 146097
  let doe := z % 146097
  let yoe := (doe - doe / 1460 + doe / 36524 - doe / 146096) / 365
  let y := yoe + era * 400
  let doy := doe - (365 * yoe + yoe / 4 - yoe / 100)
  let mp := (5 * doy + 2) / 153
  let d := doy - (153 * mp + 2) / 5 + 1
  let m := if mp < 10 then mp + 3 else mp - 9
  (if m ≤ 2 then y + 1 else y, m, d)

/-- Two-digit zero padded decimal field of `strftime`. -/
def pad2 (n : Nat) : String := if n < 10 then "0" ++ toString n else toString n

/-- Four-digit zero padded year field of `strftime`. -/
def pad4 (n : Nat) : String :=
  if n < 10 then "000" ++ toString n
  else if n < 100 then "00" ++ toString n
  else if n < 1000 then "0" ++ toString n
  else toString n

/-- `publish_time.strftime("%Y-%m-%dT%H:%M:%S+08:00")` applied to the
instant `t` (seconds on the UTC+8 wall clock). -/
def renderIsoSgt (t : Nat) : String :=
  let ymd := civilFromDays (t / 86400)
  pad4 ymd.1 ++ "-" ++ pad2 ymd.2.1 ++ "-" ++ pad2 ymd.2.2 ++ "T" ++
    pad2 (t / 3600 % 24) ++ ":" ++ pad2 (t / 60 % 60) ++ ":" ++
    pad2 (t % 60) ++ "+08:00"

/-- `TypefullyPublisher._calculate_publish_time` (lines 94-106):
`datetime.now(SGT) + timedelta(hours=self.hours_delay)`, rendered. -/
def _calculate_publish_time (nowSgt : Nat) (hours_delay : Nat) : String :=
  renderIsoSgt (nowSgt + 3600 * hours_delay)

/-- The `publish_at` computation in `publish` (lines 133-137). -/
def publishAtValue (publish_now : Bool) (nowSgt : Nat) (hours_delay : Nat) : String :=
  if publish_now then "now" else _calculate_publish_time nowSgt hours_delay

/-- `PublishResult` (lines 19-26). -/
structure PublishResult where
  success : Bool
  url : Option String := none
  draft_id : Option String := none
  scheduled_time : Option String := none
  error_msg : Option String := none
deriving Repr, DecidableEq

/-- Mutable state of a `TypefullyPublisher` instance: the lazily cached
social set id (`self.social_set_id`, line 51). -/
structure PublisherState where
  social_set_id : Option String := none
deriving Repr, DecidableEq

/-- Configuration of a `TypefullyPublisher` instance (constructor args
that the publish path reads). -/
structure PublisherConfig where
  hours_delay : Nat
  publish_now : Bool
deriving Repr, DecidableEq

/-- The network calls `publish` can perform, in order. -/
inductive NetCall where
  | getSocialSets
  | postDraft
deriving Repr, DecidableEq

/-- Outcome of the GET /social-sets call: `none` when the request (or its
JSON decoding) raises; otherwise the status code and, for the decoded
body, `data.get('results', [])` reduced to each entry's optional id. -/
structure SocialSetsResponse where
  status_code : Nat
  results : List (Option String)
deriving Repr, DecidableEq

/-- Decoded JSON body of the draft-creation response, reduced to the keys
the code reads (`none` models an absent key; JSON null values and
non-object bodies are outside the modelled input space). -/
structure DraftJson where
  id : Option String := none
  error : Option String := none
  message : Option String := none
  detail : Option String := none
deriving Repr, DecidableEq

/-- The draft-creation response: status code, decoded JSON body (`none`
when `response.json()` raises), raw `response.text`, and the message of
the decode exception for the success-status path. -/
structure DraftResponse where
  status_code : Nat
  json : Option DraftJson := none
  text : String := ""
  jsonExnMsg : String := ""
deriving Repr, DecidableEq

/-- Outcome of the POST .../drafts call. -/
inductive DraftOutcome where
  | timeout
  | requestExn (msg : String)
  | otherExn (msg : String)
  | resp (r : DraftResponse)
deriving Repr, DecidableEq

/-- Outcomes of the network calls available to one `publish` run. -/
structure PublisherOracle where
  socialSets : Option SocialSetsResponse
  draft : DraftOutcome

/-- `TypefullyPublisher._get_social_set_id` (lines 59-92), returning the
id, the updated instance state, and the network calls performed. -/
def _get_social_set_id (st : PublisherState) (oracle : PublisherOracle) :
    Option String × PublisherState × List NetCall :=
  if strOptTruthy st.social_set_id then (st.social_set_id, st, [])
  else
    match oracle.socialSets with
    | none => (none, st, [NetCall.getSocialSets])
    | some r =>
      if r.status_code = 200 then
        match r.results with
        | [] => (none, st, [NetCall.getSocialSets])
        | firstId :: _ =>
          (firstId, { st with social_set_id := firstId }, [NetCall.getSocialSets])
      else (none, st, [NetCall.getSocialSets])

/-- The draft-submission part of `publish` (lines 132-199): everything
after the social set id has been resolved.  The `except` arms at the
bottom of `publish` map onto the `DraftOutcome` constructors; a body that
fails to decode on a success status raises out of the success branch and
is absorbed by a generic handler (which handler depends on the exception
class the HTTP library raises; every one of them yields a failure result
with a message). -/
def draftStep (cfg : PublisherConfig) (nowSgt : Nat) (outcome : DraftOutcome) :
    PublishResult :=
  let publish_at := publishAtValue cfg.publish_now nowSgt cfg.hours_delay
  match outcome with
  | DraftOutcome.timeout => { success := false, error_msg := some "Typefully API timeout" }
  | DraftOutcome.requestExn m =>
    { success := false, error_msg := some ("Request failed: " ++ m) }
  | DraftOutcome.otherExn m =>
    { success := false, error_msg := some ("Unexpected error: " ++ m) }
  | DraftOutcome.resp r =>
    if r.status_code = 200 ∨ r.status_code = 201 then
      match r.json with
      | some j =>
        let draft_id := j.id.getD "unknown"
        { success := true,
          url := some ("https://typefully.com/drafts/" ++ draft_id),
          draft_id := some draft_id,
          scheduled_time := some publish_at }
      | none =>
        { success := false, error_msg := some ("Unexpected error: " ++ r.jsonExnMsg) }
    else
      match r.json with
      | some j =>
        match j.error with
        | some e => { success := false, error_msg := some ("Typefully error: " ++ e) }
        | none =>
          match j.message with
          | some m => { success := false, error_msg := some ("Typefully error: " ++ m) }
          | none =>
            match j.detail with
            | some d => { success := false, error_msg := some ("Typefully error: " ++ d) }
            | none =>
              { success := false,
                error_msg := some ("Typefully API error: " ++ toString r.status_code) }
      | none =>
        { success := false,
          error_msg := some ("Typefully API error: " ++ toString r.status_code
            ++ " - " ++ r.text) }

/-- `TypefullyPublisher.publish` (lines 108-199): result, updated state,
and the network calls performed, in order. -/
def publish (cfg : PublisherConfig) (st : PublisherState) (oracle : PublisherOracle)
    (nowSgt : Nat) (content : String) :
    PublishResult × PublisherState × List NetCall :=
  if content = "" ∨ pytrim content = "" then
    ({ success := false, error_msg := some "Content is empty" }, st, [])
  else
    if strOptTruthy (_get_social_set_id st oracle).1 then
      (draftStep cfg nowSgt oracle.draft, (_get_social_set_id st oracle).2.1,
        (_get_social_set_id st oracle).2.2 ++ [NetCall.postDraft])
    else
      ({ success := false, error_msg := some "Failed to get social set ID" },
        (_get_social_set_id st oracle).2.1, (_get_social_set_id st oracle).2.2)

/-! ## Message formatter (src/main.py, format_tweet, lines 31-61)

The current date string (`datetime.now().strftime("%b %d")`) is passed in
as `today`. -/

/-- The line built for one project at 1-based index `i`. -/
def tweetLine (i : Nat) (p : Record) : String :=
  let name := p.project_name.getD "Unknown"
  let handle := p.handle.getD ""
  let summary := p.summary.getD ""
  let line :=
    if handle ≠ "" then toString i ++ " " ++ name ++ " (@" ++ handle ++ ")"
    else toString i ++ " " ++ name
  if summary ≠ "" then line ++ ": " ++ summary else line

/-- The `enumerate(projects, 1)` loop of `format_tweet`. -/
def tweetLines : Nat → List Record → List String
  | _, [] => []
  | i, p :: ps => tweetLine i p :: tweetLines (i + 1) ps

/-- `format_tweet` (lines 31-61): header then one line per project,
joined with blank lines. -/
def format_tweet (today : String) (projects : List Record) : String :=
  String.intercalate "\n\n" (("Early web3 projects (" ++ today ++ ")") :: tweetLines 1 projects)

/-! ## Spec-side definitions

These follow the wording of the specification (not the code) and are
compared against the embedded code in refinement-style claims. -/

/-- Spec-side truncation: the first `max_words` whitespace-separated words
of the original description joined by single spaces, with an ellipsis
marker appended iff any word was dropped; the description unchanged when
it has at most `max_words` words. -/
def truncationSpec (description : String) (max_words : Nat) : String :=
  if (pyWords description).length ≤ max_words then description
  else String.intercalate " " ((pyWords description).take max_words) ++ "..."

/-- Spec-side formatter entry: "{index} {name}" or
"{index} {name} (@{handle})" when a handle is present, with ": {summary}"
appended only when the summary is non-empty. -/
def specLine (i : Nat) (p : Record) : String :=
  (if p.handle.getD "" ≠ "" then
      toString i ++ " " ++ p.project_name.getD "Unknown" ++ " (@" ++ p.handle.getD "" ++ ")"
    else toString i ++ " " ++ p.project_name.getD "Unknown") ++
  (if p.summary.getD "" ≠ "" then ": " ++ p.summary.getD "" else "")

/-- Error-message extraction for a failure status, as the amended C8
claim states it: the body fields error, message, detail in priority
order; the raw response text is incorporated only when the body fails to
decode as JSON; a body that decodes but has none of the three fields
yields the bare status-code message. -/
def extractedErrorMsg (r : DraftResponse) : String :=
  match r.json with
  | none => "Typefully API error: " ++ toString r.status_code ++ " - " ++ r.text
  | some j =>
    match j.error with
    | some e => "Typefully error: " ++ e
    | none =>
      match j.message with
      | some m => "Typefully error: " ++ m
      | none =>
        match j.detail with
        | some d => "Typefully error: " ++ d
        | none => "Typefully API error: " ++ toString r.status_code

/-- Agreement of two records on every field except the summary. -/
def sameModuloSummary (a b : Record) : Prop :=
  a.project_name = b.project_name ∧ a.handle = b.handle ∧
  a.description = b.description ∧ a.days_since_discovery = b.days_since_discovery

/-- The documented invariant on `PublishResult`. -/
def resultInvariant (r : PublishResult) : Prop :=
  (r.success = true → r.url.isSome = true ∧ r.draft_id.isSome = true ∧ r.error_msg = none) ∧
  (r.success = false → r.error_msg.isSome = true)

/-! ## Helper lemmas -/

theorem assignSummaries_length (f : Nat → Record → String) (k : Nat) (ps : List Record) :
    (assignSummaries f k ps).length = ps.length := by
  induction ps generalizing k with
  | nil => rfl
  | cons p ps ih => simp [assignSummaries, ih]

theorem assignSummaries_get (f : Nat → Record → String) (k i : Nat) (ps : List Record)
    (h1 : i < (assignSummaries f k ps).length) (h2 : i < ps.length) :
    (assignSummaries f k ps).get ⟨i, h1⟩ =
      { ps.get ⟨i, h2⟩ with summary := some (f (k + i) (ps.get ⟨i, h2⟩)) } := by
  induction ps generalizing k i with
  | nil => exact absurd h2 (Nat.not_lt_zero i)
  | cons p ps ih =>
    cases i with
    | zero => rfl
    | succ n =>
      have h2b : n < ps.length := Nat.lt_of_succ_lt_succ h2
      have h1b : n < (assignSummaries f (k + 1) ps).length := by
        rw [assignSummaries_length]; exact h2b
      show (assignSummaries f (k + 1) ps).get ⟨n, h1b⟩ = _
      rw [ih (k + 1) n h1b h2b]
      have hk : k + 1 + n = k + (n + 1) := by omega
      rw [hk]
      rfl

theorem assignSummaries_const (g : Record → String) (k : Nat) (ps : List Record) :
    assignSummaries (fun _ p => g p) k ps =
      ps.map (fun p => { p with summary := some (g p) }) := by
  induction ps generalizing k with
  | nil => rfl
  | cons p ps ih => simp [assignSummaries, ih]

theorem summarize_projects_eq_assign (oracle : SummarizerOracle) (ps : List Record)
    (mw : Nat) : ∃ f, summarize_projects oracle ps mw = assignSummaries f 0 ps := by
  rcases oracle with ⟨b, ind⟩
  cases b with
  | none => exact ⟨_, rfl⟩
  | some t => exact ⟨_, rfl⟩

set_option linter.unnecessarySeqFocus false in
theorem keyLE_trans (a b c : Option Int) (h1 : keyLE a b = true) (h2 : keyLE b c = true) :
    keyLE a c = true := by
  cases a <;> cases b <;> cases c <;> simp [keyLE] at * <;> omega

set_option linter.unnecessarySeqFocus false in
theorem keyLE_total (a b : Option Int) : keyLE a b = true ∨ keyLE b a = true := by
  cases a <;> cases b <;> simp [keyLE] <;> omega

instance : IsTrans Record recLE := ⟨fun _ _ _ h1 h2 => keyLE_trans _ _ _ h1 h2⟩

instance : IsTotal Record recLE := ⟨fun _ _ => keyLE_total _ _⟩

/-! ## Claim theorems -/

/-- C1: for every input list of records and every outcome of the
summarization service (batch success with arbitrary response text, or
batch failure), `summarize_projects` returns a list with the same records
in the same order and the same count as its input, every record differing
from its input counterpart only in the summary field, which is populated. -/
theorem C1_summarize_projects_preserves_records (oracle : SummarizerOracle)
    (projects : List Record) (max_words : Nat) :
    (summarize_projects oracle projects max_words).length = projects.length ∧
    ∀ i (h1 : i < (summarize_projects oracle projects max_words).length)
      (h2 : i < projects.length),
      sameModuloSummary ((summarize_projects oracle projects max_words).get ⟨i, h1⟩)
        (projects.get ⟨i, h2⟩) ∧
      ((summarize_projects oracle projects max_words).get ⟨i, h1⟩).summary.isSome = true := by
  obtain ⟨f, hf⟩ := summarize_projects_eq_assign oracle projects max_words
  rw [hf]
  refine ⟨assignSummaries_length f 0 projects, ?_⟩
  intro i h1 h2
  rw [assignSummaries_get f 0 i projects h1 h2]
  exact ⟨⟨rfl, rfl, rfl, rfl⟩, rfl⟩

/-- Witness for C1 at a concrete one-record input with an all-failing
service. -/
theorem C1_witness :
    sameModuloSummary
      ((summarize_projects ⟨none, fun _ => none⟩ [{ project_name := some "X" }] 5).get
        ⟨0, by decide⟩)
      { project_name := some "X" } ∧
    ((summarize_projects ⟨none, fun _ => none⟩ [{ project_name := some "X" }] 5).get
      ⟨0, by decide⟩).summary.isSome = true :=
  (C1_summarize_projects_preserves_records ⟨none, fun _ => none⟩
    [{ project_name := some "X" }] 5).2 0 (by decide) (by decide)

/-- C2: no exception propagates out of the summarization engine: for every
service behaviour both `summarize_projects` and `summarize_description`
return normally (their exception-transparent embeddings always yield
`Except.ok`), and when every service call fails the result degrades to the
per-record individual fallback applied to each description. -/
theorem C2_no_exception_propagates (oracle : SummarizerOracle) (projects : List Record)
    (max_words : Nat) (svc : Option String) (description : String) :
    (∃ out, summarize_projectsE oracle projects max_words = Except.ok out) ∧
    (∃ s, summarize_descriptionE svc description max_words = Except.ok s) ∧
    summarize_projects ⟨none, fun _ => none⟩ projects max_words =
      projects.map (fun p =>
        { p with summary := some (summarize_description none (p.description.getD "") max_words) }) := by
  refine ⟨?_, ?_, ?_⟩
  · rcases oracle with ⟨b, ind⟩
    cases b with
    | none => exact ⟨_, rfl⟩
    | some t => exact ⟨_, rfl⟩
  · unfold summarize_descriptionE
    split
    · exact ⟨_, rfl⟩
    · split
      · exact ⟨_, rfl⟩
      · cases svc with
        | none => exact ⟨_, rfl⟩
        | some t => exact ⟨_, rfl⟩
  · show assignSummaries _ 0 projects = _
    exact assignSummaries_const
      (fun p => summarize_description none (p.description.getD "") max_words) 0 projects

/-- C3: `get_latest_projects` returns at most `count` items, sorted by the
recency key ascending (missing recency compares as infinity), every
returned item comes from the input, and every item with missing recency is
placed after all items with a defined recency. -/
theorem C3_get_latest_projects_sorted (projects : List Record) (count : Nat) :
    (get_latest_projects projects count).length ≤ count ∧
    List.Pairwise recLE (get_latest_projects projects count) ∧
    (∀ r ∈ get_latest_projects projects count, r ∈ projects) ∧
    ∀ i j (hi : i < (get_latest_projects projects count).length)
        (hj : j < (get_latest_projects projects count).length), i < j →
      ((get_latest_projects projects count).get ⟨i, hi⟩).days_since_discovery = none →
      ((get_latest_projects projects count).get ⟨j, hj⟩).days_since_discovery = none := by
  have hsorted : List.Pairwise recLE (get_latest_projects projects count) :=
    List.Pairwise.sublist (List.take_sublist _ _) (List.sorted_insertionSort recLE projects)
  refine ⟨List.length_take_le count _, hsorted, ?_, ?_⟩
  · intro r hr
    exact (List.perm_insertionSort recLE projects).subset ((List.take_sublist _ _).subset hr)
  · intro i j hi hj hij hnone
    have h := List.pairwise_iff_getElem.mp hsorted i j hi hj hij
    simp only [List.get_eq_getElem] at hnone ⊢
    unfold recLE at h
    rw [hnone] at h
    cases hc : ((get_latest_projects projects count)[j]).days_since_discovery with
    | none => rfl
    | some y => rw [hc] at h; exact absurd h (by simp [keyLE])

/-- Witness for C3 at concrete two-record inputs. -/
theorem C3_witness :
    (({ days_since_discovery := some 3 } : Record) ∈
      ([{ days_since_discovery := none }, { days_since_discovery := some 3 }] : List Record)) ∧
    ((get_latest_projects
        [({ days_since_discovery := none } : Record), { days_since_discovery := none }] 2).get
      ⟨1, by decide⟩).days_since_discovery = none :=
  ⟨(C3_get_latest_projects_sorted
      [{ days_since_discovery := none }, { days_since_discovery := some 3 }] 2).2.2.1
      { days_since_discovery := some 3 } (by decide),
   (C3_get_latest_projects_sorted
      [{ days_since_discovery := none }, { days_since_discovery := none }] 2).2.2.2
      0 1 (by decide) (by decide) (by decide) (by decide)⟩

/-- C4: in delayed mode the computed publish time is the current UTC+8
instant plus `hours_delay` hours, rendered as an ISO-8601 string of second
precision with a literal "+08:00" suffix; in immediate mode the publish_at
value is the literal "now" for every delay. -/
theorem C4_publish_time (nowSgt : Nat) (hours_delay : Nat) :
    _calculate_publish_time nowSgt hours_delay = renderIsoSgt (nowSgt + 3600 * hours_delay) ∧
    (∃ y m d, _calculate_publish_time nowSgt hours_delay =
      pad4 y ++ "-" ++ pad2 m ++ "-" ++ pad2 d ++ "T" ++
        pad2 ((nowSgt + 3600 * hours_delay) / 3600 % 24) ++ ":" ++
        pad2 ((nowSgt + 3600 * hours_delay) / 60 % 60) ++ ":" ++
        pad2 ((nowSgt + 3600 * hours_delay) % 60) ++ "+08:00") ∧
    ∀ hd now2, publishAtValue true now2 hd = "now" :=
  ⟨rfl,
   ⟨(civilFromDays ((nowSgt + 3600 * hours_delay) / 86400)).1,
    (civilFromDays ((nowSgt + 3600 * hours_delay) / 86400)).2.1,
    (civilFromDays ((nowSgt + 3600 * hours_delay) / 86400)).2.2, rfl⟩,
   fun _ _ => rfl⟩

/-- C5: when the single-item service call fails (and the description is
long enough that a call is attempted), `summarize_description` degrades to
the spec-side truncation; on the spec example it yields exactly
"alpha beta gamma...". -/
theorem C5_truncation_fallback (description : String) (max_words : Nat)
    (hne : description ≠ "") (hlen : 20 ≤ (pytrim description).length) :
    summarize_description none description max_words = truncationSpec description max_words ∧
    summarize_description none "alpha beta gamma delta epsilon" 3 = "alpha beta gamma..." := by
  constructor
  · unfold summarize_description summarize_descriptionE
    rw [if_neg hne, if_neg (by omega)]
    show truncateFallback description max_words = truncationSpec description max_words
    unfold truncateFallback truncationSpec
    by_cases h : (pyWords description).length ≤ max_words
    · rw [if_neg (by omega), if_pos h]
    · rw [if_pos (by omega), if_neg h]
  · decide

/-- Witness for C5 at the spec's concrete example. -/
theorem C5_witness :
    summarize_description none "alpha beta gamma delta epsilon" 3 =
      truncationSpec "alpha beta gamma delta epsilon" 3 ∧
    summarize_description none "alpha beta gamma delta epsilon" 3 = "alpha beta gamma..." :=
  C5_truncation_fallback "alpha beta gamma delta epsilon" 3 (by decide) (by decide)

/-- C6: batch-response parsing produces, on the spec's example for two
records, exactly the two summaries with markers stripped; and every
collected summary is non-empty. -/
theorem C6_parse_batch_response (response_text : String) (expected_count : Nat) :
    _parse_batch_response "1. Alpha wallet tool\n2. Yield tracker" 2 =
      ["Alpha wallet tool", "Yield tracker"] ∧
    ∀ s ∈ _parse_batch_response response_text expected_count, s ≠ "" := by
  constructor
  · decide
  · intro s hs
    unfold _parse_batch_response at hs
    rw [List.mem_filterMap] at hs
    obtain ⟨l, _, hl⟩ := hs
    unfold parse_line at hl
    split at hl
    · exact Option.noConfusion hl
    · split at hl
      · exact Option.noConfusion hl
      next hempty =>
        have hx := Option.some.inj hl
        subst hx
        exact hempty

/-- Witness for C6: the spec example, and a membership instance of the
non-emptiness clause. -/
theorem C6_witness :
    _parse_batch_response "1. Alpha wallet tool\n2. Yield tracker" 2 =
      ["Alpha wallet tool", "Yield tracker"] ∧
    "Alpha wallet tool" ≠ "" :=
  ⟨(C6_parse_batch_response "1. Alpha wallet tool\n2. Yield tracker" 2).1,
   (C6_parse_batch_response "1. Alpha wallet tool\n2. Yield tracker" 2).2
     "Alpha wallet tool" (by decide)⟩

/-- C7: publishing blank content fails immediately: the result is the
empty-content failure, the cached destination identifier is unchanged, and
no network call is performed. -/
theorem C7_empty_content_no_network (cfg : PublisherConfig) (st : PublisherState)
    (oracle : PublisherOracle) (nowSgt : Nat) (content : String)
    (h : pytrim content = "") :
    publish cfg st oracle nowSgt content =
      ({ success := false, error_msg := some "Content is empty" }, st, []) := by
  unfold publish
  rw [if_pos (Or.inr h)]

/-- Witness for C7 at whitespace-only content. -/
theorem C7_witness :
    publish ⟨6, false⟩ ⟨none⟩ ⟨none, DraftOutcome.timeout⟩ 0 "  " =
      ({ success := false, error_msg := some "Content is empty" }, ⟨none⟩, []) :=
  C7_empty_content_no_network ⟨6, false⟩ ⟨none⟩ ⟨none, DraftOutcome.timeout⟩ 0 "  " (by decide)

/-- A publish run with a cached destination id and non-blank content
reaches the draft submission: the result is `draftStep` on the draft
outcome, the cache is unchanged, and the only network call is the POST. -/
theorem publish_reaches_draft (cfg : PublisherConfig) (ss : Option SocialSetsResponse)
    (dr : DraftOutcome) (nowSgt : Nat) (sid content : String)
    (hsid : sid ≠ "") (hc : pytrim content ≠ "") :
    publish cfg ⟨some sid⟩ ⟨ss, dr⟩ nowSgt content =
      (draftStep cfg nowSgt dr, ⟨some sid⟩, [NetCall.postDraft]) := by
  have hc0 : content ≠ "" := fun h => hc (by rw [h]; rfl)
  have hb : (sid == "") = false := beq_eq_false_iff_ne.mpr hsid
  simp [publish, _get_social_set_id, strOptTruthy, hb, hc, hc0]

/-- The failure branch of the draft submission produces exactly the
extracted error message. -/
theorem draftStep_error (cfg : PublisherConfig) (nowSgt : Nat) (r : DraftResponse)
    (h200 : r.status_code ≠ 200) (h201 : r.status_code ≠ 201) :
    draftStep cfg nowSgt (DraftOutcome.resp r) =
      { success := false, error_msg := some (extractedErrorMsg r) } := by
  simp only [draftStep]
  rw [if_neg (by tauto)]
  unfold extractedErrorMsg
  rcases r with ⟨sc, j, tx, em⟩
  cases j with
  | none => rfl
  | some j2 =>
    rcases j2 with ⟨id, er, ms, dt⟩
    cases er with
    | some e => rfl
    | none =>
      cases ms with
      | some m => rfl
      | none => cases dt with
        | some d => rfl
        | none => rfl

/-- C8 counterexample to the claim as stated: a 400 response whose body
decodes as JSON with none of the fields error/message/detail (body text
"\x7b\x7d") yields the bare status-code message; the raw response text is
not incorporated, so the claimed fallback to raw response text does not
happen on this input. -/
theorem C8_counterexample :
    (publish ⟨6, false⟩ ⟨some "sid"⟩
        ⟨none, DraftOutcome.resp { status_code := 400, json := some {}, text := "\x7b\x7d" }⟩
        0 "hello").1.error_msg = some "Typefully API error: 400" ∧
    containsStr "Typefully API error: 400" "\x7b\x7d" = false := by
  constructor
  · rw [publish_reaches_draft ⟨6, false⟩ none _ 0 "sid" "hello" (by decide) (by decide),
      draftStep_error _ _ _ (by decide) (by decide)]
    rfl
  · decide

/-- C8 (amended): for every submission response with a status other than
200 or 201, publish fails with the message extracted from the body fields
error/message/detail in priority order, falling back to the raw response
text only when the body fails to decode as JSON (and to the bare
status-code message when it decodes without those fields); a 429 with
message "rate limited" yields a failure whose message contains
"rate limited". -/
theorem C8_error_status_message (cfg : PublisherConfig) (ss : Option SocialSetsResponse)
    (nowSgt : Nat) (sid content : String) (r : DraftResponse)
    (hsid : sid ≠ "") (hc : pytrim content ≠ "")
    (h200 : r.status_code ≠ 200) (h201 : r.status_code ≠ 201) :
    (publish cfg ⟨some sid⟩ ⟨ss, DraftOutcome.resp r⟩ nowSgt content).1.success = false ∧
    (publish cfg ⟨some sid⟩ ⟨ss, DraftOutcome.resp r⟩ nowSgt content).1.error_msg =
      some (extractedErrorMsg r) ∧
    containsStr ((publish cfg ⟨some sid⟩
        ⟨ss, DraftOutcome.resp
          { status_code := 429, json := some { message := some "rate limited" }, text := "" }⟩
        nowSgt content).1.error_msg.getD "") "rate limited" = true := by
  rw [publish_reaches_draft cfg ss (DraftOutcome.resp r) nowSgt sid content hsid hc,
    publish_reaches_draft cfg ss
      (DraftOutcome.resp
        { status_code := 429, json := some { message := some "rate limited" }, text := "" })
      nowSgt sid content hsid hc,
    draftStep_error cfg nowSgt r h200 h201,
    draftStep_error cfg nowSgt
      { status_code := 429, json := some { message := some "rate limited" }, text := "" }
      (by decide) (by decide)]
  refine ⟨rfl, rfl, ?_⟩
  show containsStr "Typefully error: rate limited" "rate limited" = true
  decide

/-- Witness for the amended C8 at a concrete 404 response with an
undecodable body. -/
theorem C8_witness :
    (publish ⟨6, false⟩ ⟨some "sid"⟩
        ⟨none, DraftOutcome.resp { status_code := 404, json := none, text := "gone" }⟩
        0 "hello").1.success = false ∧
    (publish ⟨6, false⟩ ⟨some "sid"⟩
        ⟨none, DraftOutcome.resp { status_code := 404, json := none, text := "gone" }⟩
        0 "hello").1.error_msg =
      some (extractedErrorMsg { status_code := 404, json := none, text := "gone" }) ∧
    containsStr ((publish ⟨6, false⟩ ⟨some "sid"⟩
        ⟨none, DraftOutcome.resp
          { status_code := 429, json := some { message := some "rate limited" }, text := "" }⟩
        0 "hello").1.error_msg.getD "") "rate limited" = true :=
  C8_error_status_message ⟨6, false⟩ none 0 "sid" "hello"
    { status_code := 404, json := none, text := "gone" }
    (by decide) (by decide) (by decide) (by decide)

theorem tweetLines_length (k : Nat) (ps : List Record) :
    (tweetLines k ps).length = ps.length := by
  induction ps generalizing k with
  | nil => rfl
  | cons p ps ih => simp [tweetLines, ih]

theorem tweetLines_get (k i : Nat) (ps : List Record)
    (h1 : i < (tweetLines k ps).length) (h2 : i < ps.length) :
    (tweetLines k ps).get ⟨i, h1⟩ = tweetLine (k + i) (ps.get ⟨i, h2⟩) := by
  induction ps generalizing k i with
  | nil => exact absurd h2 (Nat.not_lt_zero i)
  | cons p ps ih =>
    cases i with
    | zero => rfl
    | succ n =>
      have h2b : n < ps.length := Nat.lt_of_succ_lt_succ h2
      have h1b : n < (tweetLines (k + 1) ps).length := by
        rw [tweetLines_length]; exact h2b
      show (tweetLines (k + 1) ps).get ⟨n, h1b⟩ = _
      rw [ih (k + 1) n h1b h2b]
      have hk : k + 1 + n = k + (n + 1) := by omega
      rw [hk]
      rfl

/-- C9: the formatter emits a date header then one entry per record in
input order with 1-based index, each entry agreeing with the spec-side
entry shape, joined by blank lines; the spec's two-record example renders
exactly as stated. -/
theorem C9_format_tweet_shape (today : String) (projects : List Record) :
    format_tweet today projects =
      String.intercalate "\n\n"
        (("Early web3 projects (" ++ today ++ ")") :: tweetLines 1 projects) ∧
    (∀ k p, tweetLine k p = specLine k p) ∧
    (∀ i (h1 : i < (tweetLines 1 projects).length) (h2 : i < projects.length),
      (tweetLines 1 projects).get ⟨i, h1⟩ = tweetLine (1 + i) (projects.get ⟨i, h2⟩)) ∧
    format_tweet "Jan 05"
      [{ project_name := some "X", handle := some "x", summary := some "s" },
       { project_name := some "Y", summary := some "" }] =
      "Early web3 projects (Jan 05)\n\n1 X (@x): s\n\n2 Y" := by
  refine ⟨rfl, ?_, ?_, by decide⟩
  · intro k p
    simp only [tweetLine, specLine]
    by_cases hs : p.summary.getD "" = ""
    · have hs2 : ¬(p.summary.getD "" ≠ "") := fun hcon => hcon hs
      rw [if_neg hs2, if_neg hs2, String.append_empty]
    · have hs2 : p.summary.getD "" ≠ "" := hs
      rw [if_pos hs2, if_pos hs2, ← String.append_assoc]
  · intro i h1 h2
    exact tweetLines_get 1 i projects h1 h2

/-- Witness for C9 at a concrete one-record list. -/
theorem C9_witness :
    (tweetLines 1 [{ project_name := some "X" }]).get ⟨0, by decide⟩ =
      tweetLine (1 + 0) (([{ project_name := some "X" }] : List Record).get ⟨0, by decide⟩) :=
  (C9_format_tweet_shape "Jan 05" [{ project_name := some "X" }]).2.2.1 0 (by decide) (by decide)

theorem resultInvariant_fail (e : String) (u d t : Option String) :
    resultInvariant
      { success := false, url := u, draft_id := d, scheduled_time := t, error_msg := some e } :=
  ⟨fun h => Bool.noConfusion h, fun _ => rfl⟩

theorem resultInvariant_ok (u d : String) (t : Option String) :
    resultInvariant
      { success := true, url := some u, draft_id := some d, scheduled_time := t,
        error_msg := none } :=
  ⟨fun _ => ⟨rfl, rfl, rfl⟩, fun h => Bool.noConfusion h⟩

theorem draftStep_invariant (cfg : PublisherConfig) (nowSgt : Nat) (o : DraftOutcome) :
    resultInvariant (draftStep cfg nowSgt o) := by
  cases o with
  | timeout => exact resultInvariant_fail _ _ _ _
  | requestExn m => exact resultInvariant_fail _ _ _ _
  | otherExn m => exact resultInvariant_fail _ _ _ _
  | resp r =>
    rcases r with ⟨sc, j, tx, em⟩
    simp only [draftStep]
    split
    · cases j with
      | some j2 => exact resultInvariant_ok _ _ _
      | none => exact resultInvariant_fail _ _ _ _
    · cases j with
      | none => exact resultInvariant_fail _ _ _ _
      | some j2 =>
        rcases j2 with ⟨id, er, ms, dt⟩
        cases er with
        | some e => exact resultInvariant_fail _ _ _ _
        | none =>
          cases ms with
          | some m => exact resultInvariant_fail _ _ _ _
          | none =>
            cases dt with
            | some d => exact resultInvariant_fail _ _ _ _
            | none => exact resultInvariant_fail _ _ _ _

/-- C10: every result `publish` can return satisfies the documented
invariant: success implies url and draft id present and no error message;
failure implies an error message is present. -/
theorem C10_publish_result_invariant (cfg : PublisherConfig) (st : PublisherState)
    (oracle : PublisherOracle) (nowSgt : Nat) (content : String) :
    resultInvariant (publish cfg st oracle nowSgt content).1 := by
  unfold publish
  split
  · exact resultInvariant_fail _ _ _ _
  · split
    · exact draftStep_invariant _ _ _
    · exact resultInvariant_fail _ _ _ _

/-- Witness for C10 at a concrete successful publish. -/
theorem C10_witness :
    resultInvariant (publish ⟨6, true⟩ ⟨none⟩
      ⟨some ⟨200, [some "s1"]⟩,
        DraftOutcome.resp { status_code := 201, json := some { id := some "d7" } }⟩
      0 "hello").1 :=
  C10_publish_result_invariant ⟨6, true⟩ ⟨none⟩
    ⟨some ⟨200, [some "s1"]⟩,
      DraftOutcome.resp { status_code := 201, json := some { id := some "d7" } }⟩
    0 "hello"

end Poster
